import Mathlib

/-!
Verification development for the attachment-browser core (`recvattach.c`).

The C code is shallowly embedded: the mutable `struct Body` sibling/child
pointer graph becomes a finite tree (`Body` holds its children as a `List`;
a sibling chain `b, b->next, ...` becomes a `List Body`), in-place mutation
of flags becomes functional update, and the external collaborators that
recvattach.c merely calls (crypto predicates, mailcap lookup, decoder,
prompt layer) become boolean oracle fields / parameters recording the value
the external call would return.  Numeric constants that come from headers
not present in the sources (`mime.h`, `mutt.h`, `mx.h`, `mutt_curses.h`)
are modelled as the distinct codes used by those headers; only their
distinctness matters to any proof below.  `WithCrypto` is treated as the
full-crypto build (PGP and S/MIME compiled in), which is the configuration
the specification describes.
-/

set_option maxHeartbeats 1000000
set_option maxRecDepth 8000

namespace Recvattach

/-! ### Constants from headers outside this file -/

/-- Content-type discriminants from `mime.h` (`TYPEOTHER .. TYPEANY`). -/
def TYPEMESSAGE : Nat := 4

/-- `TYPEMULTIPART` from `mime.h`. -/
def TYPEMULTIPART : Nat := 6

/-- `TYPETEXT` from `mime.h`. -/
def TYPETEXT : Nat := 7

/-- `TYPEAPPLICATION` from `mime.h`. -/
def TYPEAPPLICATION : Nat := 2

/-- Security bits from `mutt.h`: `ENCRYPT` is bit 0. -/
def SEC_ENCRYPT : Nat := 1

/-- `SIGN` security bit. -/
def SEC_SIGN : Nat := 2

/-- `PARTSIGN` security bit. -/
def SEC_PARTSIGN : Nat := 16

/-- `APPLICATION_PGP` security bit. -/
def SEC_APPLICATION_PGP : Nat := 256

/-- `APPLICATION_SMIME` security bit. -/
def SEC_APPLICATION_SMIME : Nat := 512

/-- Mailbox backend discriminants from `mx.h`. -/
def MUTT_POP : Nat := 7

/-- `MUTT_NNTP` backend discriminant. -/
def MUTT_NNTP : Nat := 5

/-- Tree-drawing codes from `mutt_curses.h`. -/
def MUTT_TREE_LLCORNER : Char := Char.ofNat 1

/-- `MUTT_TREE_LTEE` code. -/
def MUTT_TREE_LTEE : Char := Char.ofNat 3

/-- `MUTT_TREE_HLINE` code. -/
def MUTT_TREE_HLINE : Char := Char.ofNat 4

/-- The literal `'\005'` written by `mutt_update_tree` (the `MUTT_TREE_VLINE` code). -/
def MUTT_TREE_RARROW : Char := Char.ofNat 7

/-- `'\005'` literal from `mutt_update_tree`. -/
def charFive : Char := Char.ofNat 5

/-- `'\006'` literal from `mutt_update_tree`. -/
def charSix : Char := Char.ofNat 6

/-- NUL terminator. -/
def nulChar : Char := Char.ofNat 0

/-- `STRING` buffer size from `lib.h`. -/
def STRING_SIZE : Nat := 256

/-! ### The Body tree -/

/-- Scalar attributes of a MIME `struct Body` (from `body.h`, referenced by
recvattach.c).  Pointer-valued C fields that may be NULL become `Option`;
the results of the external predicates `mutt_is_multipart_encrypted`
(crypto), `rfc1524_mailcap_lookup(.., MUTT_PRINT)` (mailcap) and
`mutt_can_decode` (decoder) are recorded as the oracle fields `encrypted`,
`mailcapPrint` and `canDecode`.  `id` models the node's distinct machine
address; `fileContent` models the decoded bytes of the part used by the
save engine. -/
structure BodyFields where
  btype : Nat
  subtype : String
  encrypted : Bool
  collapsed : Bool
  deleted : Bool
  tagged : Bool
  description : Option String
  d_filename : Option String
  filename : Option String
  hasHdr : Bool
  mailcapPrint : Bool
  canDecode : Bool
  fileContent : String
  id : Nat
deriving DecidableEq, Repr

/-- A MIME part: scalar fields plus the ordered children (`parts`).  The C
sibling chain is represented by the containing `List Body`. -/
inductive Body where
  | mk (fields : BodyFields) (parts : List Body)
deriving Repr

/-- Scalar fields of a node. -/
def Body.fields : Body → BodyFields
  | .mk f _ => f

/-- Children of a node (C `b->parts`). -/
def Body.parts : Body → List Body
  | .mk _ p => p

/-- C `b->type`. -/
def Body.btype (b : Body) : Nat := b.fields.btype

/-- C `b->subtype`. -/
def Body.subtype (b : Body) : String := b.fields.subtype

/-- Oracle for `mutt_is_multipart_encrypted(b)`. -/
def Body.encrypted (b : Body) : Bool := b.fields.encrypted

/-- C `b->collapsed`. -/
def Body.collapsed (b : Body) : Bool := b.fields.collapsed

/-- C `b->deleted`. -/
def Body.deleted (b : Body) : Bool := b.fields.deleted

/-- C `b->tagged`. -/
def Body.tagged (b : Body) : Bool := b.fields.tagged

/-- C `b->description`. -/
def Body.description (b : Body) : Option String := b.fields.description

/-- C `b->d_filename`. -/
def Body.d_filename (b : Body) : Option String := b.fields.d_filename

/-- C `b->filename`. -/
def Body.filename (b : Body) : Option String := b.fields.filename

/-- Whether `b->hdr` is non-NULL. -/
def Body.hasHdr (b : Body) : Bool := b.fields.hasHdr

/-- Oracle for `rfc1524_mailcap_lookup(b, type, NULL, MUTT_PRINT)`. -/
def Body.mailcapPrint (b : Body) : Bool := b.fields.mailcapPrint

/-- Oracle for `mutt_can_decode(b)`. -/
def Body.canDecode (b : Body) : Bool := b.fields.canDecode

/-- Decoded content of the part, as written by `mutt_save_attachment`. -/
def Body.fileContent (b : Body) : String := b.fields.fileContent

/-- Machine identity of the node. -/
def Body.id (b : Body) : Nat := b.fields.id

/-- ASCII lower-casing of one character, as `mutt_strcasecmp` does. -/
def lowerChar (c : Char) : Char :=
  if 'A' ≤ c ∧ c ≤ 'Z' then Char.ofNat (c.toNat + 32) else c

/-- `mutt_strcasecmp(a, b) == 0`: ASCII case-insensitive string equality. -/
def strCaseEq (a b : String) : Bool :=
  a.data.map lowerChar == b.data.map lowerChar

/-- `mutt_is_message_type` (recvattach.c:413): true for `message/rfc822`
and `message/news`. -/
def mutt_is_message_type (t : Nat) (st : String) : Bool :=
  t == TYPEMESSAGE && (strCaseEq st "rfc822" || strCaseEq st "news")

/-! ### TreeFlattener: `mutt_gen_attach_list` and `mutt_update_tree` -/

/-- One slot of the attachment index (`struct AttachPtr` from `attach.h`,
as populated by recvattach.c).  `content_has_next` records whether
`content->next` was non-NULL at emission time (the fact the glyph pass
reads); `tree` is the glyph string, `none` until the glyph pass runs. -/
structure AttachPtr where
  content : Body
  parent_type : Int
  level : Nat
  num : Nat
  content_has_next : Bool
  tree : Option (List Char)
deriving Repr

/-- `mutt_gen_attach_list` (recvattach.c:109), as a pure producer of the
emitted entry list.  The C function grows a shared array; here each call
returns the entries it appends, in order.  The `level == 0` call of
`mutt_update_tree` at the end of the C function is applied once over the
final full list by `mutt_flatten` below (in C the intermediate level-0
applications are overwritten by the final one). -/
def mutt_gen_attach_list (compose : Bool) : List Body → Int → Nat → List AttachPtr
  | [], _, _ => []
  | Body.mk f parts :: rest, parent_type, level =>
    if f.btype == TYPEMULTIPART && !parts.isEmpty &&
        (compose || (parent_type == -1 && !strCaseEq "alternative" f.subtype)) &&
        !f.encrypted then
      mutt_gen_attach_list compose parts (f.btype : Int) level ++
        mutt_gen_attach_list compose rest parent_type level
    else
      let e : AttachPtr :=
        { content := Body.mk f parts, parent_type := parent_type, level := level,
          num := 0, content_has_next := !rest.isEmpty, tree := none }
      let kids :=
        if !compose && !f.collapsed &&
            ((f.btype == TYPEMULTIPART && !f.encrypted) ||
              mutt_is_message_type f.btype f.subtype) then
          mutt_gen_attach_list compose parts (f.btype : Int) (level + 1)
        else []
      e :: (kids ++ mutt_gen_attach_list compose rest parent_type level)
termination_by l _ _ => sizeOf l
decreasing_by all_goals (simp_wf; try omega)

/-- The glyph string visible in `buf` before the first NUL. -/
def bufToTree (buf : List Char) : List Char :=
  buf.takeWhile (fun c => c ≠ nulChar)

/-- Body of the `mutt_update_tree` loop (recvattach.c:71): walks the index
with the persistent `buf` char buffer, assigning `num := position` and the
glyph string, then re-encoding the arrow columns with the `'\005'`/`'\006'`
codes for the next iteration. -/
def updateTreeGo : List AttachPtr → Nat → List Char → List AttachPtr
  | [], _, _ => []
  | a :: rest, x, buf =>
    let buf1 :=
      if 2 * (a.level + 2) < STRING_SIZE then
        if a.level ≠ 0 then
          let p := 2 * (a.level - 1)
          ((((buf.set p (if a.content_has_next then MUTT_TREE_LTEE else MUTT_TREE_LLCORNER)).set
              (p + 1) MUTT_TREE_HLINE).set (p + 2) MUTT_TREE_RARROW).set (p + 3) nulChar)
        else buf.set 0 nulChar
      else buf
    let buf2 :=
      if 2 * (a.level + 2) < STRING_SIZE ∧ a.level ≠ 0 then
        let p := 2 * (a.level - 1)
        ((buf1.set p (if a.content_has_next then charFive else charSix)).set (p + 1) charSix)
      else buf1
    { a with num := x, tree := some (bufToTree buf1) } :: updateTreeGo rest (x + 1) buf2

/-- `mutt_update_tree` (recvattach.c:71). -/
def mutt_update_tree (idx : List AttachPtr) : List AttachPtr :=
  updateTreeGo idx 0 (List.replicate STRING_SIZE nulChar)

/-- A completed flatten: the top-level `mutt_gen_attach_list(m, -1, .., 0, compose)`
call followed by its `mutt_update_tree` pass. -/
def mutt_flatten (compose : Bool) (ms : List Body) : List AttachPtr :=
  mutt_update_tree (mutt_gen_attach_list compose ms (-1) 0)

/-! ### CollapseEngine: `attach_collapse` -/

/-- `attach_collapse` (recvattach.c:909) as a tree transformer.
`digestOpt` is the `OPT_DIGEST_COLLAPSE` option; the other arguments are the
C parameters `collapse`, `init` and `just_one`.  `i = init || b->collapsed`
selects either the digest force-collapse recursion `(1, 1, 0)` or the
ordinary recursion `(collapse, i, 0)`; every visited node gets
`collapsed := collapse`, and `just_one` stops after the first sibling. -/
def attach_collapse (digestOpt : Bool) (collapse init just_one : Bool) :
    List Body → List Body
  | [] => []
  | Body.mk f parts :: rest =>
    let i := init || f.collapsed
    let parts1 :=
      if i && digestOpt && f.btype == TYPEMULTIPART && strCaseEq f.subtype "digest" then
        attach_collapse digestOpt true true false parts
      else if f.btype == TYPEMULTIPART || mutt_is_message_type f.btype f.subtype then
        attach_collapse digestOpt collapse i false parts
      else parts
    let b1 := Body.mk { f with collapsed := collapse } parts1
    if just_one then b1 :: rest
    else b1 :: attach_collapse digestOpt collapse init just_one rest
termination_by l => sizeOf l
decreasing_by all_goals (simp_wf; try omega)

/-- Preorder listing of every `collapsed` flag in a forest (the observable
state the collapse law speaks about). -/
def collapsedFlags : List Body → List Bool
  | [] => []
  | Body.mk f parts :: rest => f.collapsed :: (collapsedFlags parts ++ collapsedFlags rest)
termination_by l => sizeOf l
decreasing_by all_goals (simp_wf; try omega)

/-! ### PrintEngine: `can_print` and the batched print path -/

/-- The printability test applied to one selected part inside `can_print`
(recvattach.c:719): a mailcap print entry, or subtype equal to
`"text/plain"` or `"application/postscript"` (compared against
`top->subtype` exactly as the C does), or decodable. -/
def part_printable (b : Body) : Bool :=
  b.mailcapPrint || strCaseEq "text/plain" b.subtype ||
    strCaseEq "application/postscript" b.subtype || b.canDecode

/-- `can_print` (recvattach.c:719).  Note the C `return can_print(top->parts, tag)`
inside the loop: the first untagged sibling with children decides the whole
call, and later siblings are never examined. -/
def can_print (tag : Bool) : List Body → Bool
  | [] => true
  | Body.mk f parts :: rest =>
    if !tag || f.tagged then
      if !part_printable (Body.mk f parts) then false
      else if !tag then true
      else can_print tag rest
    else if !parts.isEmpty then can_print tag parts
    else if !tag then true
    else can_print tag rest
termination_by l => sizeOf l
decreasing_by all_goals (simp_wf; try omega)

/-- The parts `can_print` actually examines, in examination order (the
traversal of `can_print` with the printability outcome ignored, which is
sound because the branch taken never depends on printability). -/
def can_print_scope (tag : Bool) : List Body → List Body
  | [] => []
  | Body.mk f parts :: rest =>
    if !tag || f.tagged then
      if !tag then [Body.mk f parts]
      else Body.mk f parts :: can_print_scope tag rest
    else if !parts.isEmpty then can_print_scope tag parts
    else if !tag then []
    else can_print_scope tag rest
termination_by l => sizeOf l
decreasing_by all_goals (simp_wf; try omega)

/-- The parts the printing pass `print_attachment_list` (recvattach.c:749)
would actually feed to the printer: the current part, or every tagged part,
descending through untagged parts with children (this loop has no early
`return`, unlike `can_print`). -/
def print_selected (tag : Bool) : List Body → List Body
  | [] => []
  | Body.mk f parts :: rest =>
    if !tag || f.tagged then
      Body.mk f parts :: (if !tag then [] else print_selected tag rest)
    else if !parts.isEmpty then
      print_selected tag parts ++ print_selected tag rest
    else print_selected tag rest
termination_by l => sizeOf l
decreasing_by all_goals (simp_wf; try omega)

/-- Whether the batched branch of `mutt_print_attachment_list`
(recvattach.c:794, with `OPT_ATTACH_SPLIT` unset) spawns the print command:
the quad-option must answer yes and `can_print` must pass; otherwise the
function returns before `mutt_create_filter`. -/
def batched_print_spawns (confirmed : Bool) (tag : Bool) (tops : List Body) : Bool :=
  confirmed && can_print tag tops

/-! ### SaveEngine: `mutt_save_attachment_list`, split=off -/

/-- The concatenated-save walk of `mutt_save_attachment_list`
(recvattach.c:523) with `OPT_ATTACH_SPLIT` unset, under the external
assumptions the claim makes: every prompt is answered with a fresh target
and every `mutt_save_attachment` call succeeds (`rc == 0`).  Returns
`(thisFile?, nestedFiles)`: the contents of the single file this invocation
accumulates (`none` when no part was selected, so no prompt happened), and
the files produced by the recursive calls made for untagged parts with
children (each recursive call has its own fresh `buf`, hence its own
prompt and its own file).  After each successful save the C appends
`AttachSep` to the file when it is set. -/
def save_list_concat (sep : Option String) (tag : Bool) :
    List Body → Option String × List String
  | [] => (none, [])
  | Body.mk f parts :: rest =>
    if !tag || f.tagged then
      let tail := if tag then save_list_concat sep tag rest else (none, [])
      let sepStr := match sep with | some s => s | none => ""
      (some (f.fileContent ++ sepStr ++ (tail.1.getD "")), tail.2)
    else if !parts.isEmpty then
      let nested := save_list_concat sep true parts
      let tail := if tag then save_list_concat sep tag rest else (none, [])
      (tail.1, (nested.1.toList ++ nested.2) ++ tail.2)
    else if tag then save_list_concat sep tag rest
    else (none, [])
termination_by l => sizeOf l
decreasing_by all_goals (simp_wf; try omega)

/-! ### EntryFormatter: the `d`/`F`/`f` chain of `mutt_attach_fmt` -/

/-- Rank of a format code in the `d → F → f` fall-through chain; the
termination measure of `mutt_attach_fmt_render`. -/
def fmtRank (op : Char) : Nat :=
  if op = 'd' then 2 else if op = 'F' then 1 else 0

/-- The non-optional rendering of `mutt_attach_fmt` (recvattach.c:179) for
the filename chain `d`/`F`/`f`, as the payload string handed to
`mutt_format_s` (prefix padding, applied uniformly by `mutt_format_s`, is
not modelled).  `pretty` is the external `mutt_pretty_mailbox`
home-relativization, `msgFmt` is whether the `$message_format` string
(`MsgFmt`) is set, and `mkStr` is the external `_mutt_make_string` result
for the embedded message header.  The C `switch` falls through from `d` to
`F` to `f`; here each fall-through is the call of the next case.  Unknown
codes render `""` (`*dest = 0`). -/
def mutt_attach_fmt_render (pretty : String → String) (msgFmt : Bool)
    (mkStr : Body → String) (op : Char) (b : Body) : String :=
  match op with
  | 'f' =>
    match b.filename with
    | some fn => match fn.data with
      | '/' :: _ => pretty fn
      | _ => fn
    | none => ""
  | 'F' =>
    match b.d_filename with
    | some s => s
    | none => mutt_attach_fmt_render pretty msgFmt mkStr 'f' b
  | 'd' =>
    match b.description with
    | some s => s
    | none =>
      if (mutt_is_message_type b.btype b.subtype && msgFmt && b.hasHdr) = true ∧
          mkStr b ≠ "" then mkStr b
      else if b.d_filename = none ∧ b.filename = none then "<no description>"
      else mutt_attach_fmt_render pretty msgFmt mkStr 'F' b
  | _ => ""
termination_by fmtRank op
decreasing_by all_goals decide

/-- Tabulated form of code `f`, following the amended specification words:
the filename, home-relativized when it is an absolute path, empty when no
filename exists. -/
def attach_fmt_tab_f (pretty : String → String) (b : Body) : String :=
  match b.filename with
  | some fn => match fn.data with
    | '/' :: _ => pretty fn
    | _ => fn
  | none => ""

/-- Tabulated form of code `F`, following the amended specification words:
the display filename when present, else the filename rendering of `f`. -/
def attach_fmt_tab_F (pretty : String → String) (b : Body) : String :=
  match b.d_filename with
  | some s => s
  | none =>
    match b.filename with
    | some fn => match fn.data with
      | '/' :: _ => pretty fn
      | _ => fn
    | none => ""

/-- Tabulated form of code `d`, following the amended specification words:
the description when present; else, for a message part with
`$message_format` set, an embedded header, and a nonempty formatted line,
that line; else the `<no description>` placeholder when neither
`d_filename` nor `filename` exists; else the `F` rendering. -/
def attach_fmt_tab_d (pretty : String → String) (msgFmt : Bool)
    (mkStr : Body → String) (b : Body) : String :=
  match b.description with
  | some s => s
  | none =>
    if (mutt_is_message_type b.btype b.subtype && msgFmt && b.hasHdr) = true ∧
        mkStr b ≠ "" then mkStr b
    else if b.d_filename = none ∧ b.filename = none then "<no description>"
    else
      match b.d_filename with
      | some s => s
      | none =>
        match b.filename with
        | some fn => match fn.data with
          | '/' :: _ => pretty fn
          | _ => fn
        | none => ""

/-! ### The `OP_DELETE` handler (no tag prefix) -/

/-- "Mailbox is read-only." (recvattach.c:56). -/
def msgReadonly : String := "Mailbox is read-only."

/-- POP deletion notice (recvattach.c:1130). -/
def msgPop : String := "Can't delete attachment from POP server."

/-- NNTP deletion notice (recvattach.c:1139). -/
def msgNntp : String := "Can't delete attachment from news server."

/-- Encrypted deletion notice (recvattach.c:1146). -/
def msgEncrypted : String := "Deletion of attachments from encrypted messages is unsupported."

/-- Signed deletion warning (recvattach.c:1152). -/
def msgSigned : String := "Deletion of attachments from signed messages may invalidate the signature."

/-- Multipart-only notice (recvattach.c:1170). -/
def msgMultipartOnly : String := "Only deletion of multipart attachments is supported."

/-- Context of an `OP_DELETE` dispatch without tag prefix: the mailbox
read-only flag and backend discriminant (`Context->readonly`,
`Context->magic`), the header security bits, and the selected entry's
`parent_type`. -/
structure DeleteCtx where
  readonly : Bool
  magic : Nat
  security : Nat
  parent_type : Int
deriving DecidableEq, Repr

/-- Result of the dispatch: whether the selected Body's `deleted` flag was
set to true, and the status/error messages shown, in order. -/
structure DeleteResult where
  deletedSet : Bool
  messages : List String
deriving DecidableEq, Repr

/-- The `OP_DELETE` case of `mutt_view_attachments` (recvattach.c:1123)
with `menu->tagprefix` false: `CHECK_READONLY`, the POP and NNTP backend
checks, the encrypted check, the signed warning (which does not stop the
operation), and the `parent_type == TYPEMULTIPART` requirement guarding
`idx[menu->current]->content->deleted = true`. -/
def op_delete_single (c : DeleteCtx) : DeleteResult :=
  if c.readonly then ⟨false, [msgReadonly]⟩
  else if c.magic == MUTT_POP then ⟨false, [msgPop]⟩
  else if c.magic == MUTT_NNTP then ⟨false, [msgNntp]⟩
  else if c.security &&& SEC_ENCRYPT ≠ 0 then ⟨false, [msgEncrypted]⟩
  else if c.parent_type == (TYPEMULTIPART : Int) then
    ⟨true, if c.security &&& (SEC_SIGN ||| SEC_PARTSIGN) ≠ 0 then [msgSigned] else []⟩
  else
    ⟨false, (if c.security &&& (SEC_SIGN ||| SEC_PARTSIGN) ≠ 0 then [msgSigned] else []) ++
      [msgMultipartOnly]⟩

/-! ### The `OP_EXIT` handler -/

/-- Header flags touched by `OP_EXIT`. -/
structure HdrFlags where
  attach_del : Bool
  changed : Bool
deriving DecidableEq, Repr

/-- One slot of the C index array at exit time: `none` is a NULL
`AttachPtr*` (skipped by `continue`), `some none` is an entry whose
`content` was cleared by a rebuild, `some (some b)` is a live entry. -/
def ExitSlot : Type := Option (Option Body)

/-- The `attach_del` computation of the `OP_EXIT` case (recvattach.c:1284):
scan every slot, and record whether some live entry's Body is deleted. -/
def op_exit_attach_del (slots : List ExitSlot) : Bool :=
  slots.any fun s =>
    match s with
    | some (some b) => b.deleted
    | _ => false

/-- The header-flag effect of `OP_EXIT`: `attach_del` is recomputed from
the slots, and `changed` is forced to true when `attach_del` is. -/
def op_exit_hdr (slots : List ExitSlot) (hdr : HdrFlags) : HdrFlags :=
  let d := op_exit_attach_del slots
  { attach_del := d, changed := if d then true else hdr.changed }

/-- The live slots corresponding to a flattened index. -/
def slotsOfIdx (es : List AttachPtr) : List ExitSlot :=
  es.map fun e => some (some e.content)

/-- Whether some Body reachable from a forest has `deleted == true`. -/
def reachableDeleted : List Body → Bool
  | [] => false
  | Body.mk f parts :: rest =>
    f.deleted || reachableDeleted parts || reachableDeleted rest
termination_by l => sizeOf l
decreasing_by all_goals (simp_wf; try omega)

/-! ### SessionController entry: the crypto gate of `mutt_view_attachments` -/

/-- External outcomes consulted by the entry sequence of
`mutt_view_attachments` (recvattach.c:948): whether `mx_open_message`
succeeds, the results of `crypt_valid_passphrase` and of the S/MIME and
PGP decrypt calls, and the structural crypto predicates on
`hdr->content`. -/
structure SessionIn where
  openOk : Bool
  security : Nat
  contentSmimeAny : Bool
  contentSmimeOpq : Bool
  validPassphrase : Bool
  smimeDecryptOk : Bool
  smimeInnerOpq : Bool
  smimeDecrypt2Ok : Bool
  contentPgpEncrypted : Bool
  pgpDecryptOk : Bool
deriving DecidableEq, Repr

/-- Observable outcome of the entry sequence, up to (and excluding) the
main loop: whether the backing message was opened, whether it was closed
again before reaching the menu, and whether the menu and the EntryList
were built. -/
structure SessionEntryOut where
  msgOpened : Bool
  msgClosed : Bool
  menuCreated : Bool
  indexBuilt : Bool
deriving DecidableEq, Repr

/-- The entry sequence of `mutt_view_attachments` (recvattach.c:948–1040),
for the full-crypto build: open the message; if the header is encrypted or
S/MIME-opaque, run the passphrase gate and the decryption chain, closing
the message and returning on failure; otherwise (or on success) create the
menu and build the index. -/
def view_attachments_entry (s : SessionIn) : SessionEntryOut :=
  if !s.openOk then
    ⟨false, false, false, false⟩
  else
    let needSecured := s.security &&& SEC_ENCRYPT ≠ 0 ∨ s.contentSmimeOpq = true
    if needSecured then
      if s.security &&& SEC_ENCRYPT ≠ 0 ∧ s.validPassphrase = false then
        ⟨true, true, false, false⟩
      else
        let smimeHere := s.security &&& SEC_APPLICATION_SMIME ≠ 0
        let (needSecured1, secured1) :=
          if smimeHere then
            if s.contentSmimeAny then
              if s.smimeInnerOpq then (true, s.smimeDecrypt2Ok) else (true, s.smimeDecryptOk)
            else (false, false)
          else (true, false)
        let pgpHere := s.security &&& SEC_APPLICATION_PGP ≠ 0
        let (needSecured2, secured2) :=
          if pgpHere then
            if s.contentPgpEncrypted then (needSecured1, s.pgpDecryptOk)
            else (false, secured1)
          else (needSecured1, secured1)
        if needSecured2 ∧ secured2 = false then ⟨true, true, false, false⟩
        else ⟨true, false, true, true⟩
    else ⟨true, false, true, true⟩

/-! ### `update_attach_index` and the menu cursor -/

/-- The menu fields `update_attach_index` touches (`struct Menu`,
`mutt_menu.h`): the cursor and the entry count, both C `int`s. -/
structure MenuState where
  current : Int
  max : Int
deriving DecidableEq, Repr

/-- `update_attach_index` (recvattach.c:820): rebuild the index with
`mutt_gen_attach_list(cur, -1, .., 0, 0)` (which runs `mutt_update_tree`),
set `menu->max`, and clamp `menu->current` to `max - 1` when it is at or
past the new count. -/
def update_attach_index (cur : List Body) (menu : MenuState) :
    List AttachPtr × MenuState :=
  let idx := mutt_flatten false cur
  let newMax : Int := (idx.length : Int)
  let newCur := if menu.current ≥ newMax then newMax - 1 else menu.current
  (idx, { current := newCur, max := newMax })

/-! ### Auxiliary spec-side definitions -/

/-- The message that corresponds to a blocked single-entry `OP_DELETE`, in
the precedence order of the handler: read-only first, then the POP and
NNTP backends, then encryption, then the multipart-parent requirement. -/
def deleteBlockMsg (c : DeleteCtx) : String :=
  if c.readonly then msgReadonly
  else if c.magic == MUTT_POP then msgPop
  else if c.magic == MUTT_NNTP then msgNntp
  else if c.security &&& SEC_ENCRYPT ≠ 0 then msgEncrypted
  else msgMultipartOnly

/-- Preorder listing of the node identities of a forest. -/
def preorderIds : List Body → List Nat
  | [] => []
  | Body.mk f parts :: rest => f.id :: (preorderIds parts ++ preorderIds rest)
termination_by l => sizeOf l
decreasing_by all_goals (simp_wf; try omega)

/-! ### The `aptr` back-reference

`mutt_gen_attach_list` executes `m->aptr = new` exactly when it emits the
entry for `m`, so the assignments to the back-pointers are the pairs
(body identity, entry position) in emission order, a later assignment to
the same body overwriting an earlier one. -/

/-- The `m->aptr = new` assignment events of a flattened index whose first
entry sits at position `k`: (body identity, entry position), in order. -/
def aptrWritesFrom (k : Nat) : List AttachPtr → List (Nat × Nat)
  | [] => []
  | e :: rest => (e.content.id, k) :: aptrWritesFrom (k + 1) rest

/-- Last-write-wins readback of an assignment list: the value of the most
recent (latest) assignment to `bid`, if any. -/
def lastWriteLookup (bid : Nat) : List (Nat × Nat) → Option Nat
  | [] => none
  | w :: ws =>
    match lastWriteLookup bid ws with
    | some v => some v
    | none => if w.1 = bid then some w.2 else none

/-- The entry position a body's `aptr` points at after the flatten. -/
def aptrOf (es : List AttachPtr) (bid : Nat) : Option Nat :=
  lastWriteLookup bid (aptrWritesFrom 0 es)

/-! ### Concrete sample inputs -/

/-- Neutral scalar fields; samples override what they need. -/
def baseFields : BodyFields :=
  { btype := 0, subtype := "", encrypted := false, collapsed := false,
    deleted := false, tagged := false, description := none, d_filename := none,
    filename := none, hasHdr := false, mailcapPrint := false, canDecode := false,
    fileContent := "", id := 0 }

/-- `text/plain` child of the sample `multipart/alternative`. -/
def altPlain : Body :=
  .mk { baseFields with btype := TYPETEXT, subtype := "plain", id := 1 } []

/-- `text/html` child of the sample `multipart/alternative`. -/
def altHtml : Body :=
  .mk { baseFields with btype := TYPETEXT, subtype := "html", id := 2 } []

/-- A top-level `multipart/alternative` wrapping `text/plain` and
`text/html`, nothing encrypted or collapsed. -/
def altRoot : Body :=
  .mk { baseFields with btype := TYPEMULTIPART, subtype := "alternative", id := 0 }
    [altPlain, altHtml]

/-- A deleted `text/plain` hidden inside the collapsed digest below. -/
def exInner : Body :=
  .mk { baseFields with btype := TYPETEXT, subtype := "plain", deleted := true, id := 2 } []

/-- A collapsed `multipart/digest` holding the deleted part. -/
def exDigest : Body :=
  .mk { baseFields with btype := TYPEMULTIPART, subtype := "digest", collapsed := true, id := 1 } [exInner]

/-- An undeleted sibling `text/plain`. -/
def exPlain : Body :=
  .mk { baseFields with btype := TYPETEXT, subtype := "plain", id := 3 } []

/-- `multipart/mixed` whose flattened index misses the deleted part. -/
def exRoot : Body :=
  .mk { baseFields with btype := TYPEMULTIPART, subtype := "mixed", id := 0 }
    [exDigest, exPlain]

/-- A tagged, printable part hidden inside the untagged wrapper below. -/
def prHidden : Body :=
  .mk { baseFields with btype := TYPETEXT, subtype := "plain", tagged := true, canDecode := true, id := 11 } []

/-- An untagged `multipart/mixed` with one tagged child; `can_print`
returns from inside it. -/
def prWrap : Body :=
  .mk { baseFields with btype := TYPEMULTIPART, subtype := "mixed", id := 10 } [prHidden]

/-- A tagged, unprintable later sibling: no mailcap print entry, subtype
`octet-stream`, not decodable. -/
def prBad : Body :=
  .mk { baseFields with btype := TYPEAPPLICATION, subtype := "octet-stream", tagged := true, id := 12 } []

/-- First tagged part of the concatenated-save scenario. -/
def saveA : Body :=
  .mk { baseFields with btype := TYPETEXT, subtype := "plain", tagged := true, filename := some "a.txt", fileContent := "AAA", id := 20 } []

/-- Second tagged part of the concatenated-save scenario. -/
def saveB : Body :=
  .mk { baseFields with btype := TYPETEXT, subtype := "plain", tagged := true, filename := some "b.txt", fileContent := "BBB", id := 21 } []

/-- A part with no description, no display filename and no filename. -/
def bareBody : Body :=
  .mk { baseFields with btype := TYPETEXT, subtype := "plain", id := 30 } []

/-- An expanded `text/plain` inside the previously-collapsed digest below. -/
def dgChild : Body :=
  .mk { baseFields with btype := TYPETEXT, subtype := "plain", id := 41 } []

/-- A `multipart/digest` that currently carries `collapsed == true`. -/
def dgRoot : Body :=
  .mk { baseFields with btype := TYPEMULTIPART, subtype := "digest", collapsed := true, id := 40 } [dgChild]

/-- A live index entry whose Body is deleted. -/
def exEntry : AttachPtr :=
  { content := exInner, parent_type := (TYPEMULTIPART : Int), level := 1, num := 0,
    content_has_next := false, tree := none }

/-! ### Basic lemmas -/

@[simp] theorem Body.fields_mk (f : BodyFields) (p : List Body) : (Body.mk f p).fields = f := rfl

@[simp] theorem Body.parts_mk (f : BodyFields) (p : List Body) : (Body.mk f p).parts = p := rfl

/-- Projection of the flatten of the sample alternative tree: three
entries, the wrapper at level 0 and the children at level 1. -/
theorem flatten_altRoot_proj :
    (mutt_flatten false [altRoot]).map (fun e => (e.content.id, e.parent_type, e.level, e.num)) =
      [(0, -1, 0, 0), (1, (TYPEMULTIPART : Int), 1, 1), (2, (TYPEMULTIPART : Int), 1, 2)] := by
  simp [mutt_flatten, mutt_gen_attach_list, altRoot, altPlain, altHtml, baseFields,
    mutt_is_message_type, TYPEMULTIPART, TYPETEXT, TYPEMESSAGE, Body.btype, Body.subtype,
    Body.encrypted, Body.collapsed, Body.fields, Body.id, strCaseEq, lowerChar,
    mutt_update_tree, updateTreeGo, bufToTree, STRING_SIZE, nulChar]

/-- Length of the flatten of the sample alternative tree. -/
theorem flatten_altRoot_length : (mutt_flatten false [altRoot]).length = 3 := by
  simpa using congrArg List.length flatten_altRoot_proj

/-- Claim C10: after `update_attach_index` the cursor is clamped to
`max - 1` when at or past the new entry count, and for a rebuild that
yields a non-empty list (and a non-negative incoming cursor, the menu
invariant) the cursor indexes a valid entry. -/
theorem c10_update_attach_index_clamps (cur : List Body) (menu : MenuState)
    (hcur : 0 ≤ menu.current) :
    ((update_attach_index cur menu).2.max = ((mutt_flatten false cur).length : Int)) ∧
    (menu.current ≥ ((mutt_flatten false cur).length : Int) →
      (update_attach_index cur menu).2.current = ((mutt_flatten false cur).length : Int) - 1) ∧
    (1 ≤ (mutt_flatten false cur).length →
      0 ≤ (update_attach_index cur menu).2.current ∧
      (update_attach_index cur menu).2.current < (update_attach_index cur menu).2.max) := by
  unfold update_attach_index
  refine ⟨rfl, fun hge => ?_, fun hlen => ?_⟩
  · simp [hge]
  · by_cases hge : menu.current ≥ ((mutt_flatten false cur).length : Int) <;>
      simp [hge] <;> omega

/-- Witness for C10 at the sample alternative tree with cursor 5. -/
theorem c10_witness :
    0 ≤ (update_attach_index [altRoot] ⟨5, 0⟩).2.current ∧
    (update_attach_index [altRoot] ⟨5, 0⟩).2.current <
      (update_attach_index [altRoot] ⟨5, 0⟩).2.max :=
  (c10_update_attach_index_clamps [altRoot] ⟨5, 0⟩ (by decide)).2.2
    (by rw [flatten_altRoot_length]; norm_num)

/-- Claim C8: with the header encrypted and no valid passphrase, the
session entry closes the backing message and returns before creating the
menu or building the EntryList. -/
theorem c8_encrypted_no_passphrase (s : SessionIn) (hopen : s.openOk = true)
    (henc : s.security &&& SEC_ENCRYPT ≠ 0) (hpass : s.validPassphrase = false) :
    view_attachments_entry s =
      { msgOpened := true, msgClosed := true, menuCreated := false, indexBuilt := false } := by
  simp [view_attachments_entry, hopen, henc, hpass]

/-- Witness for C8 at a concrete encrypted session without passphrase. -/
theorem c8_witness :
    view_attachments_entry
        ⟨true, SEC_ENCRYPT, false, false, false, false, false, false, false, false⟩ =
      { msgOpened := true, msgClosed := true, menuCreated := false, indexBuilt := false } :=
  c8_encrypted_no_passphrase _ rfl (by decide) rfl

/-- Claim C3: a single-entry `OP_DELETE` is blocked (no `deleted` flag
changes, and the message corresponding to the first failing check is
shown) exactly when the mailbox is read-only, the backend is POP or NNTP,
the header is encrypted, or the selected entry's `parent_type` is not
multipart; otherwise the flag is set, with the signature warning shown
(but not blocking) on signed headers. -/
theorem c3_delete_guards (c : DeleteCtx) :
    ((c.readonly = true ∨ c.magic = MUTT_POP ∨ c.magic = MUTT_NNTP ∨
        c.security &&& SEC_ENCRYPT ≠ 0 ∨ c.parent_type ≠ (TYPEMULTIPART : Int)) →
      (op_delete_single c).deletedSet = false ∧
        deleteBlockMsg c ∈ (op_delete_single c).messages) ∧
    (¬(c.readonly = true ∨ c.magic = MUTT_POP ∨ c.magic = MUTT_NNTP ∨
        c.security &&& SEC_ENCRYPT ≠ 0 ∨ c.parent_type ≠ (TYPEMULTIPART : Int)) →
      (op_delete_single c).deletedSet = true ∧
      (c.security &&& (SEC_SIGN ||| SEC_PARTSIGN) ≠ 0 →
        msgSigned ∈ (op_delete_single c).messages)) := by
  unfold op_delete_single deleteBlockMsg
  constructor
  · intro hb
    split_ifs with h1 h2 h3 h4 h5 <;> simp_all
  · intro hb
    push_neg at hb
    obtain ⟨hr, hp, hn, he, hm⟩ := hb
    split_ifs with h1 h2 h3 h4 h5 <;> simp_all

/-- Witness for C3: a POP mailbox blocks with the POP message; a signed,
deletable entry is deleted with the signature warning shown. -/
theorem c3_witness :
    ((op_delete_single ⟨false, MUTT_POP, 0, (TYPEMULTIPART : Int)⟩).deletedSet = false ∧
      deleteBlockMsg ⟨false, MUTT_POP, 0, (TYPEMULTIPART : Int)⟩ ∈
        (op_delete_single ⟨false, MUTT_POP, 0, (TYPEMULTIPART : Int)⟩).messages) ∧
    ((op_delete_single ⟨false, 1, SEC_SIGN, (TYPEMULTIPART : Int)⟩).deletedSet = true ∧
      msgSigned ∈ (op_delete_single ⟨false, 1, SEC_SIGN, (TYPEMULTIPART : Int)⟩).messages) :=
  ⟨(c3_delete_guards _).1 (Or.inr (Or.inl rfl)),
   ⟨((c3_delete_guards _).2 (by decide)).1,
    ((c3_delete_guards _).2 (by decide)).2 (by decide)⟩⟩

/-- Claim C5 (amended): in a concatenated save of two tagged parts with a
configured separator, the separator is written after every successfully
saved part — including the last — so the file is `x ++ s ++ y ++ s`, not
`x ++ s ++ y`. -/
theorem c5_concat_save_separator (x y s : String) :
    save_list_concat (some s) true
        [Body.mk { baseFields with tagged := true, fileContent := x } [],
         Body.mk { baseFields with tagged := true, fileContent := y } []] =
      (some (x ++ s ++ y ++ s), []) := by
  simp [save_list_concat, baseFields, Body.tagged, Body.fileContent, Body.fields,
    String.append_assoc]

/-- Claim C5 counterexample: with separator `"\n--\n"` the single output
file is not `a.txt`'s content, the separator, then `b.txt`'s content — a
trailing separator follows the last part. -/
theorem c5_counterexample :
    (save_list_concat (some "\n--\n") true [saveA, saveB]).1 ≠
      some ("AAA" ++ "\n--\n" ++ "BBB") := by
  simp [save_list_concat, saveA, saveB, baseFields, Body.tagged, Body.fileContent, Body.fields]

/-- Claim C6 (amended): the `d`/`F`/`f` chain of the entry formatter
agrees with its explicit tabulation — `d` renders the description, else
the formatted message line for message parts (when `$message_format` is
set, a header exists and the line is nonempty), else `<no description>`
when both filenames are absent, else what `F` renders; `F` renders
`d_filename`, else what `f` renders; `f` renders the filename,
home-relativized when absolute, empty when absent. -/
theorem c6_fmt_chain (pretty : String → String) (msgFmt : Bool)
    (mkStr : Body → String) (b : Body) :
    mutt_attach_fmt_render pretty msgFmt mkStr 'd' b = attach_fmt_tab_d pretty msgFmt mkStr b ∧
    mutt_attach_fmt_render pretty msgFmt mkStr 'F' b = attach_fmt_tab_F pretty b ∧
    mutt_attach_fmt_render pretty msgFmt mkStr 'f' b = attach_fmt_tab_f pretty b := by
  refine ⟨?_, ?_, ?_⟩ <;>
    simp [mutt_attach_fmt_render, attach_fmt_tab_d, attach_fmt_tab_F, attach_fmt_tab_f]

/-- Claim C6 counterexample: on a part with no description, no
`d_filename` and no `filename`, code `d` renders `<no description>` while
code `F` renders the empty string, so `d` does not fall through to `F`'s
rendering whenever the description is absent. -/
theorem c6_counterexample :
    mutt_attach_fmt_render id false (fun _ => "") 'd' bareBody ≠
      mutt_attach_fmt_render id false (fun _ => "") 'F' bareBody := by
  simp [mutt_attach_fmt_render, bareBody, baseFields, Body.description, Body.d_filename,
    Body.filename, Body.btype, Body.subtype, Body.hasHdr, Body.fields, mutt_is_message_type]

/-- Claim C1 (amended): flattening a top-level `multipart/alternative`
with two non-multipart, non-message, uncollapsed, unencrypted children
yields three entries — the wrapper at level 0 (a top-level alternative is
not descended through) and the two children at level 1. -/
theorem c1_alt_root_flatten (wf : BodyFields) (c1 c2 : Body)
    (hty : wf.btype = TYPEMULTIPART) (hsub : wf.subtype = "alternative")
    (henc : wf.encrypted = false) (hcol : wf.collapsed = false)
    (h1 : c1.btype = TYPETEXT) (h2 : c2.btype = TYPETEXT) :
    (mutt_flatten false [Body.mk wf [c1, c2]]).map
        (fun e => (e.content, e.parent_type, e.level, e.num)) =
      [(Body.mk wf [c1, c2], -1, 0, 0), (c1, (TYPEMULTIPART : Int), 1, 1),
        (c2, (TYPEMULTIPART : Int), 1, 2)] := by
  obtain ⟨f1, p1⟩ := c1
  obtain ⟨f2, p2⟩ := c2
  simp only [Body.btype, Body.fields] at h1 h2
  simp [mutt_flatten, mutt_gen_attach_list, mutt_is_message_type, hty, hsub, henc, hcol,
    h1, h2, TYPEMULTIPART, TYPETEXT, TYPEMESSAGE, Body.btype, Body.subtype, Body.encrypted,
    Body.collapsed, Body.fields, strCaseEq, lowerChar, mutt_update_tree, updateTreeGo,
    bufToTree, STRING_SIZE, nulChar]

/-- Claim C1 counterexample: the flatten of the sample top-level
`multipart/alternative` does not have exactly two entries (it has three:
the wrapper is itself listed). -/
theorem c1_counterexample : (mutt_flatten false [altRoot]).length ≠ 2 := by
  rw [flatten_altRoot_length]; norm_num

/-- Witness for C1 at the concrete sample alternative tree. -/
theorem c1_witness :
    (mutt_flatten false [altRoot]).map
        (fun e => (e.content, e.parent_type, e.level, e.num)) =
      [(altRoot, -1, 0, 0), (altPlain, (TYPEMULTIPART : Int), 1, 1),
        (altHtml, (TYPEMULTIPART : Int), 1, 2)] :=
  c1_alt_root_flatten
    { baseFields with btype := TYPEMULTIPART, subtype := "alternative", id := 0 }
    altPlain altHtml rfl rfl rfl rfl rfl rfl

/-- Claim C2 (amended): after `OP_EXIT`, `attach_del` is true iff some
entry of the index (the EntryList at exit time) references a deleted Body,
and whenever `attach_del` is set, `changed` is set too.  Bodies reachable
from the root but absent from the index (inside collapsed subtrees) do not
contribute. -/
theorem c2_exit_attach_del_iff (es : List AttachPtr) (hdr : HdrFlags) :
    ((op_exit_hdr (slotsOfIdx es) hdr).attach_del = true ↔
      ∃ e ∈ es, e.content.deleted = true) ∧
    ((op_exit_hdr (slotsOfIdx es) hdr).attach_del = true →
      (op_exit_hdr (slotsOfIdx es) hdr).changed = true) := by
  constructor
  · simp [op_exit_hdr, op_exit_attach_del, slotsOfIdx, List.any_eq_true]
  · intro h
    simp only [op_exit_hdr] at h ⊢
    simp only [h]
    simp

/-- Witness for C2 on a one-entry index with a deleted Body. -/
theorem c2_witness :
    (op_exit_hdr (slotsOfIdx [exEntry]) ⟨false, false⟩).attach_del = true ∧
    (op_exit_hdr (slotsOfIdx [exEntry]) ⟨false, false⟩).changed = true := by
  have h := c2_exit_attach_del_iff [exEntry] ⟨false, false⟩
  have ha : (op_exit_hdr (slotsOfIdx [exEntry]) ⟨false, false⟩).attach_del = true :=
    h.1.mpr ⟨exEntry, by simp, by simp [exEntry, exInner, baseFields, Body.deleted, Body.fields]⟩
  exact ⟨ha, h.2 ha⟩

/-- Claim C2 counterexample: in a session state with a deleted Body inside
a collapsed digest (deletable before the collapse, then hidden by the
rebuild), the index at exit misses the deleted Body: `attach_del` comes
out false although a Body reachable from the viewed root is deleted. -/
theorem c2_counterexample :
    (op_exit_hdr (slotsOfIdx (mutt_flatten false [exRoot])) ⟨false, false⟩).attach_del = false ∧
    reachableDeleted [exRoot] = true := by
  constructor
  · simp [mutt_flatten, mutt_gen_attach_list, exRoot, exDigest, exInner, exPlain, baseFields,
      mutt_is_message_type, TYPEMULTIPART, TYPETEXT, TYPEMESSAGE, Body.btype, Body.subtype,
      Body.encrypted, Body.collapsed, Body.deleted, Body.fields, strCaseEq, lowerChar,
      mutt_update_tree, updateTreeGo, bufToTree, STRING_SIZE, nulChar,
      op_exit_hdr, op_exit_attach_del, slotsOfIdx]
  · simp [reachableDeleted, exRoot, exDigest, exInner, exPlain, baseFields]

/-- `can_print` equals the conjunction of printability over exactly the
parts its traversal examines (`can_print_scope`): the branch taken never
depends on a printability outcome, so the examined set is
traversal-determined. -/
theorem can_print_eq_scope (tag : Bool) (l : List Body) :
    can_print tag l = (can_print_scope tag l).all part_printable := by
  have key : ∀ n (l : List Body) (tag : Bool), sizeOf l ≤ n →
      can_print tag l = (can_print_scope tag l).all part_printable := by
    intro n
    induction n with
    | zero =>
      intro l tag hl
      cases l with
      | nil => simp at hl
      | cons b rest => simp [List.cons.sizeOf_spec] at hl
    | succ n ih =>
      intro l tag hl
      cases l with
      | nil => simp [can_print, can_print_scope]
      | cons b rest =>
        obtain ⟨f, parts⟩ := b
        simp only [List.cons.sizeOf_spec, Body.mk.sizeOf_spec] at hl
        have hparts : sizeOf parts ≤ n := by omega
        have hrest : sizeOf rest ≤ n := by omega
        simp only [can_print, can_print_scope]
        split_ifs with h1 h2 h3 h4 h5 <;>
          simp_all [List.all_cons, List.all_nil]
  exact key (sizeOf l) l tag le_rfl

/-- Claim C4 (amended): the batched print spawns the print command iff the
confirmation succeeded and every part in `can_print`'s examined scope is
printable; the recursion returns from within the first untagged subtree
with children, so selected parts after that sibling are never checked. -/
theorem c4_batched_print_spawn_iff (confirmed tag : Bool) (tops : List Body) :
    batched_print_spawns confirmed tag tops =
      (confirmed && (can_print_scope tag tops).all part_printable) := by
  rw [batched_print_spawns, can_print_eq_scope]

/-- Claim C4 counterexample: with an untagged `multipart/mixed` (holding a
printable tagged part) followed by a tagged unprintable part, the
pre-check passes and the print command is spawned although a selected part
fails the printability check. -/
theorem c4_counterexample :
    batched_print_spawns true true [prWrap, prBad] = true ∧
    (print_selected true [prWrap, prBad]).all part_printable = false := by
  constructor
  · simp [batched_print_spawns, can_print, prWrap, prBad, prHidden, baseFields,
      part_printable, Body.mailcapPrint, Body.canDecode, Body.subtype, Body.tagged,
      Body.fields, strCaseEq, lowerChar]
  · simp [print_selected, prWrap, prBad, prHidden, baseFields, part_printable,
      Body.mailcapPrint, Body.canDecode, Body.subtype, Body.tagged, Body.fields,
      strCaseEq, lowerChar]

/-- With `collapse = true`, the result of `attach_collapse` does not
depend on the `init` argument: `init` only chooses between the digest
force-collapse recursion `(1, 1)` and the ordinary recursion `(1, i)`,
which coincide when everything is being collapsed. -/
theorem attach_collapse_init_irrel (d : Bool) :
    ∀ n (l : List Body) (i i' j : Bool), sizeOf l ≤ n →
      attach_collapse d true i j l = attach_collapse d true i' j l := by
  intro n
  induction n with
  | zero =>
    intro l i i' j hl
    cases l with
    | nil => simp [attach_collapse]
    | cons b rest => simp [List.cons.sizeOf_spec] at hl
  | succ n ih =>
    intro l i i' j hl
    cases l with
    | nil => simp [attach_collapse]
    | cons b rest =>
      obtain ⟨f, parts⟩ := b
      simp only [List.cons.sizeOf_spec, Body.mk.sizeOf_spec] at hl
      have hparts : sizeOf parts ≤ n := by omega
      have hrest : sizeOf rest ≤ n := by omega
      have hp : ∀ a b : Bool,
          attach_collapse d true a false parts = attach_collapse d true b false parts :=
        fun a b => ih parts a b false hparts
      have htail : attach_collapse d true i j rest = attach_collapse d true i' j rest :=
        ih rest i i' j hrest
      clear ih
      have hhead : ∀ z w : Bool,
          (if z && d && (f.btype == TYPEMULTIPART) && strCaseEq f.subtype "digest" then
            attach_collapse d true true false parts
          else if f.btype == TYPEMULTIPART || mutt_is_message_type f.btype f.subtype then
            attach_collapse d true z false parts
          else parts) =
          (if w && d && (f.btype == TYPEMULTIPART) && strCaseEq f.subtype "digest" then
            attach_collapse d true true false parts
          else if f.btype == TYPEMULTIPART || mutt_is_message_type f.btype f.subtype then
            attach_collapse d true w false parts
          else parts) := by
        intro z w
        cases z <;> cases w <;> cases d <;>
          by_cases hbt : f.btype = TYPEMULTIPART <;>
          by_cases hdig : strCaseEq f.subtype "digest" = true <;>
          by_cases hmsg : mutt_is_message_type f.btype f.subtype = true <;>
          (try simp [hbt, hdig, hmsg]) <;>
          first
            | rfl
            | exact hp true false
            | exact hp false true
      simp only [attach_collapse]
      rw [htail, hhead (i || f.collapsed) (i' || f.collapsed)]

/-- Convenient closed form of `attach_collapse_init_irrel`. -/
theorem attach_collapse_init_irrel' (d i i' j : Bool) (l : List Body) :
    attach_collapse d true i j l = attach_collapse d true i' j l :=
  attach_collapse_init_irrel d (sizeOf l) l i i' j le_rfl

/-- Idempotence of `attach_collapse` whenever `collapse` or `init` is
set (every invocation the program makes has one of them set). -/
theorem attach_collapse_idem_aux (d : Bool) :
    ∀ n (l : List Body) (c i j : Bool), (c = true ∨ i = true) → sizeOf l ≤ n →
      attach_collapse d c i j (attach_collapse d c i j l) = attach_collapse d c i j l := by
  intro n
  induction n with
  | zero =>
    intro l c i j hci hl
    cases l with
    | nil => simp [attach_collapse]
    | cons b rest => simp [List.cons.sizeOf_spec] at hl
  | succ n ih =>
    intro l c i j hci hl
    cases l with
    | nil => simp [attach_collapse]
    | cons b rest =>
      obtain ⟨f, parts⟩ := b
      simp only [List.cons.sizeOf_spec, Body.mk.sizeOf_spec] at hl
      have hparts : sizeOf parts ≤ n := by omega
      have hrest : sizeOf rest ≤ n := by omega
      rcases hci with hc | hi
      · subst hc
        have hswap : attach_collapse d true false false parts =
            attach_collapse d true true false parts :=
          attach_collapse_init_irrel' d false true false parts
        have ihp : attach_collapse d true true false (attach_collapse d true true false parts) =
            attach_collapse d true true false parts :=
          ih parts true true false (Or.inl rfl) hparts
        have iht : attach_collapse d true i j (attach_collapse d true i j rest) =
            attach_collapse d true i j rest :=
          ih rest true i j (Or.inl rfl) hrest
        clear ih
        cases j <;> cases i <;> cases hcol : f.collapsed <;> cases d <;>
          by_cases hbt : f.btype = TYPEMULTIPART <;>
          by_cases hdig : strCaseEq f.subtype "digest" = true <;>
          by_cases hmsg : mutt_is_message_type f.btype f.subtype = true <;>
          simp_all [attach_collapse]
      · subst hi
        have ihpF : attach_collapse d true true false (attach_collapse d true true false parts) =
            attach_collapse d true true false parts :=
          ih parts true true false (Or.inl rfl) hparts
        have ihpG : attach_collapse d c true false (attach_collapse d c true false parts) =
            attach_collapse d c true false parts :=
          ih parts c true false (Or.inr rfl) hparts
        have iht : attach_collapse d c true j (attach_collapse d c true j rest) =
            attach_collapse d c true j rest :=
          ih rest c true j (Or.inr rfl) hrest
        clear ih
        cases j <;> cases hcol : f.collapsed <;> cases d <;>
          by_cases hbt : f.btype = TYPEMULTIPART <;>
          by_cases hdig : strCaseEq f.subtype "digest" = true <;>
          by_cases hmsg : mutt_is_message_type f.btype f.subtype = true <;>
          simp_all [attach_collapse]

/-- Claim C7 (amended): `attach_collapse` is idempotent whenever the
`collapse` flag or the `init` flag is set — which covers every call the
program makes; with both clear and digest-collapse configured, a
previously-collapsed `multipart/digest` breaks idempotence (see the
counterexample). -/
theorem c7_collapse_idem (d c i j : Bool) (l : List Body) (h : c = true ∨ i = true) :
    attach_collapse d c i j (attach_collapse d c i j l) = attach_collapse d c i j l :=
  attach_collapse_idem_aux d (sizeOf l) l c i j h le_rfl

/-- Witness for C7: collapsing (`collapse = 1, init = 0, just_one = 1`)
twice equals collapsing once on a concrete one-node list. -/
theorem c7_witness :
    attach_collapse false true false true (attach_collapse false true false true [dgChild]) =
      attach_collapse false true false true [dgChild] :=
  c7_collapse_idem false true false true [dgChild] (Or.inl rfl)

/-- Claim C7 counterexample: with digest-collapse set, `collapse = 0`,
`init = 0`, `just_one = 1`, applying the operation twice to a
previously-collapsed `multipart/digest` leaves different collapsed flags
than applying it once: the first call force-collapses the digest's
children, the second expands them. -/
theorem c7_counterexample :
    collapsedFlags
        (attach_collapse true false false true (attach_collapse true false false true [dgRoot])) ≠
      collapsedFlags (attach_collapse true false false true [dgRoot]) := by
  simp [attach_collapse, collapsedFlags, dgRoot, dgChild, baseFields, Body.collapsed,
    Body.btype, Body.subtype, Body.fields, mutt_is_message_type, TYPEMULTIPART, TYPETEXT,
    TYPEMESSAGE, strCaseEq, lowerChar]

/-- The glyph/index pass preserves the list length. -/
theorem updateTreeGo_length (l : List AttachPtr) :
    ∀ (x : Nat) (buf : List Char), (updateTreeGo l x buf).length = l.length := by
  induction l with
  | nil => intro x buf; simp [updateTreeGo]
  | cons a rest ih => intro x buf; simp [updateTreeGo, ih]

/-- The glyph/index pass assigns `num := x + position`. -/
theorem updateTreeGo_get_num (l : List AttachPtr) :
    ∀ (x : Nat) (buf : List Char) (i : Nat) (h : i < (updateTreeGo l x buf).length),
      ((updateTreeGo l x buf).get ⟨i, h⟩).num = x + i := by
  induction l with
  | nil => intro x buf i h; simp [updateTreeGo] at h
  | cons a rest ih =>
    intro x buf i h
    cases i with
    | zero => simp [updateTreeGo]
    | succ i =>
      simp only [updateTreeGo, List.get_cons_succ]
      rw [ih]
      omega

/-- The glyph/index pass preserves each entry's Body identity. -/
theorem updateTreeGo_map_id (l : List AttachPtr) :
    ∀ (x : Nat) (buf : List Char),
      (updateTreeGo l x buf).map (fun e => e.content.id) =
        l.map (fun e => e.content.id) := by
  induction l with
  | nil => intro x buf; simp [updateTreeGo]
  | cons a rest ih => intro x buf; simp [updateTreeGo, ih]

/-- The assignment events carry exactly the entries' Body identities. -/
theorem aptrWritesFrom_map_fst (es : List AttachPtr) :
    ∀ k, (aptrWritesFrom k es).map Prod.fst = es.map (fun e => e.content.id) := by
  induction es with
  | nil => intro k; simp [aptrWritesFrom]
  | cons e rest ih => intro k; simp [aptrWritesFrom, ih]

/-- A body never assigned reads back `none`. -/
theorem lastWriteLookup_not_mem (bid : Nat) (ws : List (Nat × Nat))
    (h : bid ∉ ws.map Prod.fst) : lastWriteLookup bid ws = none := by
  induction ws with
  | nil => simp [lastWriteLookup]
  | cons w ws ih =>
    simp only [List.map_cons, List.mem_cons, not_or] at h
    obtain ⟨h1, h2⟩ := h
    simp only [lastWriteLookup, ih h2]
    rw [if_neg (fun hh => h1 hh.symm)]

/-- With no duplicated Body identities, the back-pointer of the Body of
the entry at position `i` reads back position `k + i`. -/
theorem aptr_lookup_writes (es : List AttachPtr) :
    ∀ (k i : Nat) (h : i < es.length),
      ((es.map (fun e => e.content.id)).Nodup) →
      lastWriteLookup ((es.get ⟨i, h⟩).content.id) (aptrWritesFrom k es) = some (k + i) := by
  induction es with
  | nil => intro k i h; simp at h
  | cons e rest ih =>
    intro k i h hnd
    simp only [List.map_cons, List.nodup_cons] at hnd
    obtain ⟨hne, hnd'⟩ := hnd
    cases i with
    | zero =>
      have hnone : lastWriteLookup e.content.id (aptrWritesFrom (k + 1) rest) = none := by
        apply lastWriteLookup_not_mem
        rw [aptrWritesFrom_map_fst]
        exact hne
      simp [aptrWritesFrom, lastWriteLookup, List.get_cons_zero, hnone]
    | succ i =>
      have hi : i < rest.length := by simp only [List.length_cons] at h; omega
      simp only [List.get_cons_succ, aptrWritesFrom, lastWriteLookup]
      rw [ih (k + 1) i hi hnd']
      have hadd : k + 1 + i = k + (i + 1) := by omega
      simp [hadd]

/-- The identities `mutt_gen_attach_list` emits form a sublist of the
preorder identities of the tree: each node is emitted at most once. -/
theorem gen_ids_sublist (compose : Bool) :
    ∀ n (ms : List Body) (pt : Int) (lvl : Nat), sizeOf ms ≤ n →
      ((mutt_gen_attach_list compose ms pt lvl).map (fun e => e.content.id)).Sublist
        (preorderIds ms) := by
  intro n
  induction n with
  | zero =>
    intro ms pt lvl hl
    cases ms with
    | nil => simp [mutt_gen_attach_list, preorderIds]
    | cons b rest => simp [List.cons.sizeOf_spec] at hl
  | succ n ih =>
    intro ms pt lvl hl
    cases ms with
    | nil => simp [mutt_gen_attach_list, preorderIds]
    | cons b rest =>
      obtain ⟨f, parts⟩ := b
      simp only [List.cons.sizeOf_spec, Body.mk.sizeOf_spec] at hl
      have hparts : sizeOf parts ≤ n := by omega
      have hrest : sizeOf rest ≤ n := by omega
      simp only [mutt_gen_attach_list, preorderIds]
      split_ifs with h1 h2
      · rw [List.map_append]
        exact ((ih parts _ _ hparts).append (ih rest _ _ hrest)).cons _
      · simp only [List.map_cons, List.map_append, Body.id, Body.fields]
        exact ((ih parts _ _ hparts).append (ih rest _ _ hrest)).cons₂ _
      · simp only [List.map_cons, List.map_append, List.map_nil, List.nil_append,
          Body.id, Body.fields]
        exact (((ih rest _ _ hrest).trans (List.sublist_append_right _ _)).cons₂ _)

/-- Claim C9: after a completed flatten (tree walk plus glyph/index pass)
over a tree with distinct Body identities (distinct machine addresses),
every entry's `num` is its list position and its Body's `aptr`
back-reference reads back that same position, so
`entries[e.num].content.aptr == e`. -/
theorem c9_flatten_index_backrefs (compose : Bool) (ms : List Body)
    (hnd : (preorderIds ms).Nodup) (i : Nat)
    (h : i < (mutt_flatten compose ms).length) :
    ((mutt_flatten compose ms).get ⟨i, h⟩).num = i ∧
    aptrOf (mutt_flatten compose ms)
      ((mutt_flatten compose ms).get ⟨i, h⟩).content.id = some i := by
  have hids : (mutt_flatten compose ms).map (fun e => e.content.id) =
      (mutt_gen_attach_list compose ms (-1) 0).map (fun e => e.content.id) := by
    unfold mutt_flatten mutt_update_tree
    exact updateTreeGo_map_id _ 0 _
  have hnodup : ((mutt_flatten compose ms).map (fun e => e.content.id)).Nodup := by
    rw [hids]
    exact (gen_ids_sublist compose (sizeOf ms) ms (-1) 0 le_rfl).nodup hnd
  constructor
  · have hnum := updateTreeGo_get_num (mutt_gen_attach_list compose ms (-1) 0) 0
      (List.replicate STRING_SIZE nulChar) i h
    simpa using hnum
  · simpa [aptrOf] using
      aptr_lookup_writes (mutt_flatten compose ms) 0 i h hnodup

/-- Preorder identities of the sample alternative tree. -/
theorem preorderIds_altRoot : preorderIds [altRoot] = [0, 1, 2] := by
  simp [preorderIds, altRoot, altPlain, altHtml, baseFields]

/-- Witness for C9 at position 1 of the sample flatten. -/
theorem c9_witness :
    ((mutt_flatten false [altRoot]).get
        ⟨1, by rw [flatten_altRoot_length]; norm_num⟩).num = 1 ∧
    aptrOf (mutt_flatten false [altRoot])
        ((mutt_flatten false [altRoot]).get
          ⟨1, by rw [flatten_altRoot_length]; norm_num⟩).content.id = some 1 :=
  c9_flatten_index_backrefs false [altRoot]
    (by rw [preorderIds_altRoot]; decide) 1 (by rw [flatten_altRoot_length]; norm_num)

end Recvattach
